import Mathlib

/-!
Shallow embedding of the SmartThings Spotify lambda (src/src/index.ts).

Strings are modelled as Lean `String`; JavaScript `undefined` values that can
arise from out-of-bounds array indexing are modelled with `Option String`.
-/

namespace SpotifyLambda

/-- JavaScript `String.prototype.split` for a single-character separator and no
limit, on the character list of the string: `"" -> [[]]`, and every occurrence
of the separator starts a new (possibly empty) chunk. -/
def splitChar (c : Char) : List Char → List (List Char)
  | [] => [[]]
  | x :: xs =>
    let r := splitChar c xs
    if x = c then [] :: r
    else (x :: r.headD []) :: r.tail

/-- JavaScript coercion of a possibly-undefined string into a template literal:
`undefined` renders as the text "undefined". -/
def jsStringOf : Option String → String
  | some s => s
  | none => "undefined"

/-- Spotify playlist device id (interface PlaylistDeviceId). `playlistUri` is
an `Option` because the decoder below indexes `split[1]`, which is `undefined`
in JavaScript when the split produced fewer than two chunks. -/
structure PlaylistDeviceId where
  deviceId : String
  playlistUri : Option String
deriving DecidableEq, Repr

/-- Spotify playlist device (interface PlaylistDevice). -/
structure PlaylistDevice where
  id : PlaylistDeviceId
  name : String
  model : String
deriving DecidableEq, Repr

/-- `externalIdToPlaylistDeviceId` from index.ts: `externalId.split("|", 2)`,
`deviceId` is `split[0]`, `playlistUri` is `split[1]`. JavaScript split with
limit 2 truncates the chunk list to its first two elements. -/
def externalIdToPlaylistDeviceId (externalId : String) : PlaylistDeviceId :=
  let split := (splitChar '|' externalId.data).take 2
  { deviceId := String.mk (split.headD [])
    playlistUri := split[1]?.map String.mk }

/-- `playlistDeviceIdToExternalId` from index.ts: the template literal
joining `deviceId` and `playlistUri` with the "|" delimiter. -/
def playlistDeviceIdToExternalId (playlistDeviceId : PlaylistDeviceId) : String :=
  playlistDeviceId.deviceId ++ "|" ++ jsStringOf playlistDeviceId.playlistUri

lemma splitChar_ne_nil (c : Char) (l : List Char) : splitChar c l ≠ [] := by
  cases l with
  | nil => simp [splitChar]
  | cons x xs =>
    by_cases h : x = c <;> simp [splitChar, h]

lemma splitChar_of_not_mem {c : Char} {l : List Char} (h : c ∉ l) :
    splitChar c l = [l] := by
  induction l with
  | nil => rfl
  | cons x xs ih =>
    have hx : x ≠ c := fun hc => h (hc ▸ List.mem_cons_self x xs)
    have hxs : c ∉ xs := fun hc => h (List.mem_cons_of_mem x hc)
    simp [splitChar, hx, ih hxs]

lemma splitChar_append {c : Char} {l₁ : List Char} (l₂ : List Char)
    (h : c ∉ l₁) : splitChar c (l₁ ++ c :: l₂) = l₁ :: splitChar c l₂ := by
  induction l₁ with
  | nil => simp [splitChar]
  | cons x xs ih =>
    have hx : x ≠ c := fun hc => h (hc ▸ List.mem_cons_self x xs)
    have hxs : c ∉ xs := fun hc => h (List.mem_cons_of_mem x hc)
    have ihx := ih hxs
    simp only [List.cons_append, splitChar, if_neg hx]
    simp only [List.append_eq] at ihx ⊢
    rw [ihx]
    simp

lemma headD_splitChar (c : Char) (l : List Char) :
    (splitChar c l).headD [] = l.takeWhile (fun x => x ≠ c) := by
  induction l with
  | nil => rfl
  | cons x xs ih =>
    by_cases h : x = c
    · simp [splitChar, h, List.takeWhile_cons]
    · simp only [splitChar, if_neg h, List.takeWhile_cons]
      simp only [decide_not] at ih ⊢
      simp only [List.headD_eq_head?] at ih
      simp [h, ih]

lemma eq_append_cons_of_count_eq_one {c : Char} {l : List Char}
    (h : l.count c = 1) : ∃ t q, l = t ++ c :: q ∧ c ∉ t ∧ c ∉ q := by
  induction l with
  | nil => simp at h
  | cons x xs ih =>
    by_cases hx : x = c
    · subst hx
      have hz : xs.count x = 0 := by simpa [List.count_cons] using h
      exact ⟨[], xs, rfl, by simp, by simpa [List.count_eq_zero] using hz⟩
    · have h1 : xs.count c = 1 := by simpa [List.count_cons, hx] using h
      obtain ⟨t, q, rfl, ht, hq⟩ := ih h1
      refine ⟨x :: t, q, rfl, ?_, hq⟩
      intro hmem
      rcases List.mem_cons.mp hmem with h2 | h2
      · exact hx h2.symm
      · exact ht h2

lemma takeWhile_ne_of_not_mem {c : Char} {l : List Char} (h : c ∉ l) :
    l.takeWhile (fun x => x ≠ c) = l := by
  rw [List.takeWhile_eq_self_iff]
  intro x hxmem
  simp only [ne_eq, decide_eq_true_eq]
  exact fun hxc => h (hxc ▸ hxmem)

/-- Decoding `t.data ++ '|' :: rest` with `t` free of the delimiter yields
`t` and the chunk of `rest` before the next delimiter. -/
lemma externalIdToPlaylistDeviceId_data (tl rest : List Char)
    (ht : '|' ∉ tl) :
    externalIdToPlaylistDeviceId ⟨tl ++ '|' :: rest⟩ =
      { deviceId := ⟨tl⟩
        playlistUri := some ⟨rest.takeWhile (fun x => x ≠ '|')⟩ } := by
  cases hsplit : splitChar '|' rest with
  | nil => exact absurd hsplit (splitChar_ne_nil _ _)
  | cons r rs =>
    have hr : r = rest.takeWhile (fun x => x ≠ '|') := by
      have hh := headD_splitChar '|' rest
      rw [hsplit] at hh
      simpa using hh
    simp only [externalIdToPlaylistDeviceId]
    rw [splitChar_append rest ht, hsplit, hr]
    simp

/-- C1: for components free of the delimiter, decoding the encoding is the
identity on the pair. -/
theorem decode_encode_roundtrip (t q : String)
    (ht : '|' ∉ t.data) (hq : '|' ∉ q.data) :
    externalIdToPlaylistDeviceId
        (playlistDeviceIdToExternalId { deviceId := t, playlistUri := some q }) =
      { deviceId := t, playlistUri := some q } := by
  have hdata : playlistDeviceIdToExternalId { deviceId := t, playlistUri := some q } =
      ⟨t.data ++ '|' :: q.data⟩ := by
    apply String.ext
    simp [playlistDeviceIdToExternalId, jsStringOf, String.data_append]
  rw [hdata, externalIdToPlaylistDeviceId_data t.data q.data ht,
    takeWhile_ne_of_not_mem hq]

/-- Witness for the round-trip theorem at a concrete delimiter-free pair. -/
theorem decode_encode_roundtrip_witness :
    externalIdToPlaylistDeviceId
        (playlistDeviceIdToExternalId { deviceId := "dev1", playlistUri := some "ctx1" }) =
      { deviceId := "dev1", playlistUri := some "ctx1" } :=
  decode_encode_roundtrip "dev1" "ctx1" (by decide) (by decide)

/-- C2 counterexample: on the input "a|b|c" the decoder does NOT return the
whole remainder "b|c" after the first delimiter, because JavaScript
`split("|", 2)` truncates the chunk list, dropping "c". -/
theorem decode_drops_after_second_delim :
    (externalIdToPlaylistDeviceId "a|b|c").playlistUri ≠ some "b|c" := by decide

/-- C2 amended: for an ExternalId of the form `t ++ "|" ++ rest` with `t`
delimiter-free, the PlaybackTargetId is `t` and the QueueId is the chunk of
`rest` strictly before the next delimiter (the whole of `rest` when no further
delimiter occurs); text after a second delimiter is dropped. -/
theorem decode_splits_capped_at_two (t rest : String) (ht : '|' ∉ t.data) :
    externalIdToPlaylistDeviceId (t ++ "|" ++ rest) =
      { deviceId := t
        playlistUri := some ⟨rest.data.takeWhile (fun x => x ≠ '|')⟩ } := by
  have hdata : t ++ "|" ++ rest = (⟨t.data ++ '|' :: rest.data⟩ : String) := by
    apply String.ext
    simp [String.data_append]
  rw [hdata, externalIdToPlaylistDeviceId_data t.data rest.data ht]

/-- Witness for the amended C2 theorem: "a|b|c" decodes to ("a", "b"). -/
theorem decode_splits_capped_at_two_witness :
    externalIdToPlaylistDeviceId "a|b|c" =
      { deviceId := "a", playlistUri := some "b" } := by
  have h := decode_splits_capped_at_two "a" "b|c" (by decide)
  rw [show ("a" ++ "|" ++ "b|c" : String) = "a|b|c" from rfl] at h
  rw [h]
  decide

/-- C8: the decoder is a total function (it is a Lean `def` with no partiality):
on an input without the delimiter it returns the whole input as deviceId and an
undefined (`none`) playlistUri, and on the empty string it returns empty/absent
fields. -/
theorem decode_total_on_degenerate_inputs :
    (∀ s : String, '|' ∉ s.data →
        externalIdToPlaylistDeviceId s = { deviceId := s, playlistUri := none }) ∧
    externalIdToPlaylistDeviceId "" = { deviceId := "", playlistUri := none } := by
  constructor
  · intro s hs
    simp [externalIdToPlaylistDeviceId, splitChar_of_not_mem hs]
  · decide

/-- Witness for C8 at the concrete delimiter-free input "abc". -/
theorem decode_total_on_degenerate_inputs_witness :
    externalIdToPlaylistDeviceId "abc" = { deviceId := "abc", playlistUri := none } :=
  decode_total_on_degenerate_inputs.1 "abc" (by decide)

/-- C10: for a string with exactly one occurrence of the delimiter, encoding
the decoding is the identity. -/
theorem encode_decode_partial_inverse (s : String)
    (h : s.data.count '|' = 1) :
    playlistDeviceIdToExternalId (externalIdToPlaylistDeviceId s) = s := by
  obtain ⟨l⟩ := s
  obtain ⟨t, q, hl, ht, hq⟩ := eq_append_cons_of_count_eq_one h
  subst hl
  rw [externalIdToPlaylistDeviceId_data t q ht, takeWhile_ne_of_not_mem hq]
  apply String.ext
  simp [playlistDeviceIdToExternalId, jsStringOf, String.data_append]

/-- Witness for C10 at the concrete input "a|b" (exactly one delimiter). -/
theorem encode_decode_partial_inverse_witness :
    playlistDeviceIdToExternalId (externalIdToPlaylistDeviceId "a|b") = "a|b" :=
  encode_decode_partial_inverse "a|b" (by decide)

/-- Provider-reported playback device, as consumed from
`spotify.getMyDevices().body.devices`; the provider may report a null id. -/
structure SpotifyDevice where
  id : Option String
  name : String
  type : String
deriving DecidableEq, Repr

/-- Provider-reported playlist, as consumed from
`spotify.getUserPlaylists().body.items`. -/
structure Playlist where
  uri : String
  name : String
deriving DecidableEq, Repr

/-- JavaScript truthiness of a possibly-null string, as used by the filter
`!!spotifyDevice.id`: null/undefined and the empty string are falsy. -/
def jsTruthy : Option String → Bool
  | some s => s ≠ ""
  | none => false

/-- `getPlaylistDevices` from index.ts as a function of the two provider
responses: filter devices by `!!id` and by name "Mobile Web Player", then
accumulate one record per (device, playlist) pair via the nested forEach. The
`id!` non-null assertion is erased at runtime; under the preceding filter the
id is always present, so it is read with a default. -/
def getPlaylistDevices (spotifyDevices : List SpotifyDevice)
    (playlists : List Playlist) : List PlaylistDevice :=
  ((spotifyDevices.filter (fun d => jsTruthy d.id)).filter
      (fun d => d.name = "Mobile Web Player")).flatMap
    (fun spotifyDevice => playlists.map (fun playlist =>
      { id := { deviceId := spotifyDevice.id.getD ""
                playlistUri := some playlist.uri }
        name := "Playlist " ++ playlist.name ++ " on " ++ spotifyDevice.name
        model := spotifyDevice.type }))

/-- One device announcement registered by the discovery handler through
`response.addDevice(id, name, profileId).manufacturerName(...).modelName(...)`. -/
structure Announcement where
  externalId : String
  name : String
  deviceProfileId : String
  manufacturerName : String
  modelName : String
deriving DecidableEq, Repr

/-- `discoveryRequest` from index.ts as a function of the provider responses:
one announcement per enumerated playlist device, keyed by the encoded external
id, with the fixed profile id and manufacturer and the device type as model. -/
def discoveryRequest (spotifyDevices : List SpotifyDevice)
    (playlists : List Playlist) : List Announcement :=
  (getPlaylistDevices spotifyDevices playlists).map (fun playlistDevice =>
    { externalId := playlistDeviceIdToExternalId playlistDevice.id
      name := playlistDevice.name
      deviceProfileId := "0284c595-fed5-4b00-9e02-6e85bb3b32fb"
      manufacturerName := "Spotify"
      modelName := playlistDevice.model })

/-- A state value is either a plain string or a list of strings, matching the
two value shapes passed to `response.addDevice` in the state handler. -/
inductive StateValue where
  | str : String → StateValue
  | strList : List String → StateValue
deriving DecidableEq, Repr

/-- One entry of the state list passed to `response.addDevice` by the state
refresh handler. -/
structure StateItem where
  component : String
  capability : String
  attr : String
  value : StateValue
deriving DecidableEq, Repr

/-- Provider playback snapshot, as consumed from
`spotify.getMyCurrentPlaybackState().body`. -/
structure PlaybackState where
  is_playing : Bool
deriving DecidableEq, Repr

/-- `stateRefreshRequest` from index.ts as a function of the provider
responses: for every enumerated playlist device, one `addDevice` call with the
fixed supported-commands entry and the playback status derived from the single
global `is_playing` flag. -/
def stateRefreshRequest (spotifyDevices : List SpotifyDevice)
    (playlists : List Playlist) (playbackState : PlaybackState) :
    List (String × List StateItem) :=
  (getPlaylistDevices spotifyDevices playlists).map (fun playlistDevice =>
    (playlistDeviceIdToExternalId playlistDevice.id,
     [{ component := "main"
        capability := "st.mediaPlayback"
        attr := "supportedPlaybackCommands"
        value := StateValue.strList ["pause", "play", "fastForward", "rewind"] },
      { component := "main"
        capability := "st.mediaPlayback"
        attr := "playbackStatus"
        value := StateValue.str (if playbackState.is_playing then "playing" else "paused") }]))

lemma jsTruthy_iff {o : Option String} :
    jsTruthy o = true ↔ ∃ s, o = some s ∧ s ≠ "" := by
  cases o <;> simp [jsTruthy]

/-- C3: the enumerator yields exactly m * n records, where m counts the
provider devices passing both filters and n the playlists; and when the
filtered device ids and the playlist uris are duplicate-free, the composite
(deviceId, playlistUri) ids of the records are pairwise distinct. -/
theorem getPlaylistDevices_cross_product (spotifyDevices : List SpotifyDevice)
    (playlists : List Playlist)
    (hdev : ((((spotifyDevices.filter (fun d => jsTruthy d.id)).filter
        (fun d => d.name = "Mobile Web Player"))).map (fun d => d.id)).Nodup)
    (hpl : (playlists.map (fun p => p.uri)).Nodup) :
    (getPlaylistDevices spotifyDevices playlists).length =
      ((spotifyDevices.filter (fun d => jsTruthy d.id)).filter
        (fun d => d.name = "Mobile Web Player")).length * playlists.length ∧
    ((getPlaylistDevices spotifyDevices playlists).map (fun pd => pd.id)).Nodup := by
  constructor
  · simp only [getPlaylistDevices, List.length_flatMap, Function.comp_def, List.length_map]
    simp [List.map_const', List.sum_replicate, smul_eq_mul, Nat.mul_comm]
  · rw [getPlaylistDevices, List.map_flatMap]
    simp only [List.map_map]
    rw [List.nodup_flatMap]
    set matching := (spotifyDevices.filter (fun d => jsTruthy d.id)).filter
        (fun d => d.name = "Mobile Web Player") with hmatching
    have hmem : ∀ d ∈ matching, ∃ s, d.id = some s ∧ s ≠ "" := by
      intro d hd
      have h1 : d ∈ spotifyDevices.filter (fun d => jsTruthy d.id) :=
        (List.mem_filter.mp hd).1
      exact jsTruthy_iff.mp (List.mem_filter.mp h1).2
    constructor
    · intro d _
      apply List.Nodup.of_map (fun i => i.playlistUri)
      rw [List.map_map]
      have h2 : (playlists.map (fun p : Playlist => (some p.uri : Option String))).Nodup := by
        have h3 := hpl.map (Option.some_injective String)
        rwa [List.map_map] at h3
      exact h2
    · have hpw : matching.Pairwise (fun a b => a.id ≠ b.id) :=
        (List.pairwise_map).mp hdev
      refine List.Pairwise.imp_of_mem ?_ hpw
      intro a b ha hb hne
      intro x hxa hxb
      obtain ⟨pa, _, hxaeq⟩ := List.mem_map.mp hxa
      obtain ⟨pb, _, hxbeq⟩ := List.mem_map.mp hxb
      obtain ⟨sa, hsa, hsane⟩ := hmem a ha
      obtain ⟨sb, hsb, hsbne⟩ := hmem b hb
      apply hne
      have h1 : ({ deviceId := a.id.getD "", playlistUri := some pa.uri } :
          PlaylistDeviceId) = x := hxaeq
      have h2 : ({ deviceId := b.id.getD "", playlistUri := some pb.uri } :
          PlaylistDeviceId) = x := hxbeq
      have h3 : a.id.getD "" = b.id.getD "" :=
        congrArg (fun i => i.deviceId) (h1.trans h2.symm)
      rw [hsa, hsb]
      rw [hsa, hsb] at h3
      simpa using h3

/-- Witness for C3: one matching device, one non-matching device and two
playlists give exactly 1 * 2 records with distinct composite ids. -/
theorem getPlaylistDevices_cross_product_witness :
    (getPlaylistDevices
        [{ id := some "d1", name := "Mobile Web Player", type := "Smartphone" },
         { id := none, name := "Mobile Web Player", type := "TV" }]
        [{ uri := "uri1", name := "P1" }, { uri := "uri2", name := "P2" }]).length = 1 * 2 ∧
    ((getPlaylistDevices
        [{ id := some "d1", name := "Mobile Web Player", type := "Smartphone" },
         { id := none, name := "Mobile Web Player", type := "TV" }]
        [{ uri := "uri1", name := "P1" }, { uri := "uri2", name := "P2" }]).map
      (fun pd => pd.id)).Nodup := by
  have h := getPlaylistDevices_cross_product
      [{ id := some "d1", name := "Mobile Web Player", type := "Smartphone" },
       { id := none, name := "Mobile Web Player", type := "TV" }]
      [{ uri := "uri1", name := "P1" }, { uri := "uri2", name := "P2" }]
      (by decide) (by decide)
  exact ⟨by rw [h.1]; decide, h.2⟩

/-- C9: discovery is idempotent: two discovery runs against equal provider
inventories produce equal announcement lists, and in particular equal sets of
(ExternalId, displayName, modelName) triples. -/
theorem discovery_idempotent (d₁ d₂ : List SpotifyDevice) (p₁ p₂ : List Playlist)
    (hd : d₁ = d₂) (hp : p₁ = p₂) :
    discoveryRequest d₁ p₁ = discoveryRequest d₂ p₂ ∧
    (discoveryRequest d₁ p₁).map (fun a => (a.externalId, a.name, a.modelName)) =
      (discoveryRequest d₂ p₂).map (fun a => (a.externalId, a.name, a.modelName)) := by
  subst hd
  subst hp
  exact ⟨rfl, rfl⟩

/-- Witness for C9 at a concrete unchanged inventory. -/
theorem discovery_idempotent_witness :
    discoveryRequest [{ id := some "d1", name := "Mobile Web Player", type := "Smartphone" }]
        [{ uri := "uri1", name := "P1" }] =
      discoveryRequest [{ id := some "d1", name := "Mobile Web Player", type := "Smartphone" }]
        [{ uri := "uri1", name := "P1" }] :=
  (discovery_idempotent
    [{ id := some "d1", name := "Mobile Web Player", type := "Smartphone" }]
    [{ id := some "d1", name := "Mobile Web Player", type := "Smartphone" }]
    [{ uri := "uri1", name := "P1" }] [{ uri := "uri1", name := "P1" }] rfl rfl).1

/-- C6: in a single state-refresh invocation every enumerated device receives
the same two state entries: the fixed supported-commands list and a playback
status that is "playing" exactly when the provider flag is set. -/
theorem stateRefresh_uniform (spotifyDevices : List SpotifyDevice)
    (playlists : List Playlist) (playbackState : PlaybackState)
    (e : String × List StateItem)
    (he : e ∈ stateRefreshRequest spotifyDevices playlists playbackState) :
    e.2 = [{ component := "main"
             capability := "st.mediaPlayback"
             attr := "supportedPlaybackCommands"
             value := StateValue.strList ["pause", "play", "fastForward", "rewind"] },
           { component := "main"
             capability := "st.mediaPlayback"
             attr := "playbackStatus"
             value := StateValue.str
               (if playbackState.is_playing then "playing" else "paused") }] := by
  obtain ⟨pd, _, rfl⟩ := List.mem_map.mp he
  rfl

/-- Witness for C6 at a concrete inventory with one matching device, one
playlist and is_playing = true. -/
theorem stateRefresh_uniform_witness :
    ((("d1|uri1",
      [{ component := "main"
         capability := "st.mediaPlayback"
         attr := "supportedPlaybackCommands"
         value := StateValue.strList ["pause", "play", "fastForward", "rewind"] },
       { component := "main"
         capability := "st.mediaPlayback"
         attr := "playbackStatus"
         value := StateValue.str "playing" }])) : String × List StateItem).2 =
      [{ component := "main"
         capability := "st.mediaPlayback"
         attr := "supportedPlaybackCommands"
         value := StateValue.strList ["pause", "play", "fastForward", "rewind"] },
       { component := "main"
         capability := "st.mediaPlayback"
         attr := "playbackStatus"
         value := StateValue.str (if (true : Bool) then "playing" else "paused") }] :=
  stateRefresh_uniform
    [{ id := some "d1", name := "Mobile Web Player", type := "Smartphone" }]
    [{ uri := "uri1", name := "P1" }] { is_playing := true } _ (by decide)

/-- One (capability, command) pair from `deviceRequest.commands`. -/
structure Command where
  capability : String
  command : String
deriving DecidableEq, Repr

/-- One entry of `request.devices` in a commandRequest envelope. -/
structure DeviceRequest where
  externalDeviceId : String
  commands : List Command
deriving DecidableEq, Repr

/-- The provider calls the command handler can issue. `play` carries the
`context_uri` (an Option, since the decoded playlistUri may be undefined) and
the `device_id`; `pause` carries the `device_id`; skip calls carry nothing. -/
inductive SpotifyAction where
  | play : Option String → String → SpotifyAction
  | pause : String → SpotifyAction
  | skipToNext : SpotifyAction
  | skipToPrevious : SpotifyAction
deriving DecidableEq, Repr

/-- One `component.addState(capability, attribute, value)` record. -/
structure AddedState where
  capability : String
  attr : String
  value : String
deriving DecidableEq, Repr

/-- The entry the command handler adds to the response for one device request:
`response.addDevice(externalId)` followed by `device.addComponent("main")`,
holding the states added by that request's commands. -/
structure DeviceResponse where
  externalDeviceId : String
  component : String
  states : List AddedState
deriving DecidableEq, Repr

/-- The switch body of `commandRequest` for a single command pair. The
provider is modelled by `fails`, telling which actions throw. The result is
the list of provider actions invoked, and either the state added to the
component or an error: `play` has no try/catch, so its exception skips the
`addState` and propagates, while `pause`, `fastForward` and `rewind` wrap the
provider call in try/catch, log, and still add their state. Command pairs
matching no case of either switch fall through, invoking nothing and adding
nothing. -/
def handleCommand (fails : SpotifyAction → Bool)
    (playlistDeviceId : PlaylistDeviceId) (command : Command) :
    List SpotifyAction × Except Unit (List AddedState) :=
  if command.capability = "st.mediaPlayback" then
    if command.command = "play" then
      let a := SpotifyAction.play playlistDeviceId.playlistUri playlistDeviceId.deviceId
      if fails a then ([a], Except.error ())
      else ([a], Except.ok
        [{ capability := command.capability, attr := "playbackStatus", value := "playing" }])
    else if command.command = "pause" then
      ([SpotifyAction.pause playlistDeviceId.deviceId], Except.ok
        [{ capability := command.capability, attr := "playbackStatus", value := "paused" }])
    else if command.command = "fastForward" then
      ([SpotifyAction.skipToNext], Except.ok
        [{ capability := command.capability, attr := "playbackStatus", value := "playing" }])
    else if command.command = "rewind" then
      ([SpotifyAction.skipToPrevious], Except.ok
        [{ capability := command.capability, attr := "playbackStatus", value := "playing" }])
    else ([], Except.ok [])
  else ([], Except.ok [])

/-- The body of the `request.devices.map` callback in `commandRequest`:
`addDevice` and `addComponent("main")` run before any command, so the device
entry exists regardless of outcomes; all commands of the request are started
by `Promise.all`, so every command's provider action is invoked and every
non-propagating command's state is added even when some `play` rejects; the
Bool records whether any command rejected, which makes the joined promise
reject. -/
def handleDeviceRequest (fails : SpotifyAction → Bool)
    (deviceRequest : DeviceRequest) :
    List SpotifyAction × DeviceResponse × Bool :=
  let playlistDeviceId := externalIdToPlaylistDeviceId deviceRequest.externalDeviceId
  let results := deviceRequest.commands.map (handleCommand fails playlistDeviceId)
  (results.flatMap Prod.fst,
   { externalDeviceId := deviceRequest.externalDeviceId
     component := "main"
     states := results.flatMap (fun r =>
       match r.2 with
       | Except.ok ss => ss
       | Except.error _ => []) },
   results.any (fun r =>
     match r.2 with
     | Except.ok _ => false
     | Except.error _ => true))

/-- `commandRequest` from index.ts over a whole batch: one response entry per
device request, the provider actions invoked, and whether the outer
`Promise.all` rejected (any device request's command rejected). -/
def commandRequest (fails : SpotifyAction → Bool)
    (devices : List DeviceRequest) :
    List SpotifyAction × List DeviceResponse × Bool :=
  let rs := devices.map (handleDeviceRequest fails)
  (rs.flatMap Prod.fst, rs.map (fun r => r.2.1), rs.any (fun r => r.2.2))

/-- `promiseHandler` from index.ts restricted to commandRequest envelopes: a
fulfilled handler resolves through `succeed` with statusCode 200, a rejected
one through `fail` with statusCode 500. The accumulated device entries are
returned alongside the status code. -/
def promiseHandler (fails : SpotifyAction → Bool)
    (devices : List DeviceRequest) : Nat × List DeviceResponse :=
  let r := commandRequest fails devices
  (if r.2.2 then 500 else 200, r.2.1)

/-- C4: a play command on a device decoding to (t, q) invokes the provider
play action exactly once with context q and device t; on success the state
(st.mediaPlayback, playbackStatus, playing) is recorded; if the provider play
throws, no state is recorded for that command and the batch surfaces as a
handler-level failure (statusCode 500). -/
theorem command_play_dispatch (fails : SpotifyAction → Bool) (e t : String)
    (q : Option String)
    (h : externalIdToPlaylistDeviceId e = { deviceId := t, playlistUri := q }) :
    (handleDeviceRequest fails
        { externalDeviceId := e
          commands := [{ capability := "st.mediaPlayback", command := "play" }] }).1 =
      [SpotifyAction.play q t] ∧
    (fails (SpotifyAction.play q t) = false →
      (handleDeviceRequest fails
          { externalDeviceId := e
            commands := [{ capability := "st.mediaPlayback", command := "play" }] }).2.1.states =
        [{ capability := "st.mediaPlayback", attr := "playbackStatus", value := "playing" }]) ∧
    (fails (SpotifyAction.play q t) = true →
      (handleDeviceRequest fails
          { externalDeviceId := e
            commands := [{ capability := "st.mediaPlayback", command := "play" }] }).2.1.states = [] ∧
      (promiseHandler fails
          [{ externalDeviceId := e
             commands := [{ capability := "st.mediaPlayback", command := "play" }] }]).1 = 500) := by
  refine ⟨?_, ?_, ?_⟩
  · cases hf : fails (SpotifyAction.play q t) <;>
      simp [handleDeviceRequest, handleCommand, h, hf]
  · intro hf
    simp [handleDeviceRequest, handleCommand, h, hf]
  · intro hf
    constructor
    · simp [handleDeviceRequest, handleCommand, h, hf]
    · simp [promiseHandler, commandRequest, handleDeviceRequest, handleCommand, h, hf]

/-- Witness for C4 with a provider whose play throws: the action is invoked
once and the batch fails with statusCode 500. -/
theorem command_play_dispatch_witness :
    (handleDeviceRequest (fun _ => true)
        { externalDeviceId := "dev1|ctx1"
          commands := [{ capability := "st.mediaPlayback", command := "play" }] }).1 =
      [SpotifyAction.play (some "ctx1") "dev1"] ∧
    (promiseHandler (fun _ => true)
        [{ externalDeviceId := "dev1|ctx1"
           commands := [{ capability := "st.mediaPlayback", command := "play" }] }]).1 = 500 := by
  have h := command_play_dispatch (fun _ => true) "dev1|ctx1" "dev1" (some "ctx1") (by decide)
  exact ⟨h.1, (h.2.2 rfl).2⟩

/-- C5: pause, fastForward and rewind swallow provider exceptions: whatever
the provider does, each still adds its optimistic state (paused for pause,
playing for the skips), a pause-only device request never marks the batch
failed, and the concrete end-to-end scenario — one device "dev1|ctx1" with one
pause command against a provider whose pause throws — yields statusCode 200
with the device entry carrying component "main" and state (st.mediaPlayback,
playbackStatus, paused). -/
theorem command_tolerant_failures (fails : SpotifyAction → Bool)
    (pid : PlaylistDeviceId) (e : String) :
    (handleCommand fails pid { capability := "st.mediaPlayback", command := "pause" }).2 =
      Except.ok [{ capability := "st.mediaPlayback", attr := "playbackStatus", value := "paused" }] ∧
    (handleCommand fails pid { capability := "st.mediaPlayback", command := "fastForward" }).2 =
      Except.ok [{ capability := "st.mediaPlayback", attr := "playbackStatus", value := "playing" }] ∧
    (handleCommand fails pid { capability := "st.mediaPlayback", command := "rewind" }).2 =
      Except.ok [{ capability := "st.mediaPlayback", attr := "playbackStatus", value := "playing" }] ∧
    (handleDeviceRequest fails
        { externalDeviceId := e
          commands := [{ capability := "st.mediaPlayback", command := "pause" }] }).2.2 = false ∧
    promiseHandler
        (fun a => match a with | SpotifyAction.pause _ => true | _ => false)
        [{ externalDeviceId := "dev1|ctx1"
           commands := [{ capability := "st.mediaPlayback", command := "pause" }] }] =
      (200, [{ externalDeviceId := "dev1|ctx1"
               component := "main"
               states := [{ capability := "st.mediaPlayback"
                            attr := "playbackStatus"
                            value := "paused" }] }]) := by
  refine ⟨rfl, rfl, rfl, ?_, ?_⟩
  · simp [handleDeviceRequest, handleCommand]
  · decide

/-- C7: every device request in a batch contributes exactly one device entry,
addressed by its externalDeviceId with component "main", regardless of the
commands or provider outcomes; and a command pair matching no dispatch row
invokes no action, adds no state and raises no error. -/
theorem command_one_entry_per_request (fails : SpotifyAction → Bool)
    (devices : List DeviceRequest) :
    ((commandRequest fails devices).2.1).map
        (fun r => (r.externalDeviceId, r.component)) =
      devices.map (fun d => (d.externalDeviceId, "main")) ∧
    (∀ (pid : PlaylistDeviceId) (c : Command),
      (c.capability ≠ "st.mediaPlayback" ∨
        (c.command ≠ "play" ∧ c.command ≠ "pause" ∧
         c.command ≠ "fastForward" ∧ c.command ≠ "rewind")) →
      handleCommand fails pid c = ([], Except.ok [])) := by
  constructor
  · simp only [commandRequest, List.map_map]
    rfl
  · intro pid c hc
    rcases hc with hcap | ⟨h1, h2, h3, h4⟩
    · simp [handleCommand, hcap]
    · by_cases hcap : c.capability = "st.mediaPlayback" <;>
        simp [handleCommand, hcap, h1, h2, h3, h4]

/-- Witness for C7: a batch of one device request with an unknown command pair
produces exactly one entry with component "main" and no state. -/
theorem command_one_entry_per_request_witness :
    ((commandRequest (fun _ => false)
        [{ externalDeviceId := "d|p"
           commands := [{ capability := "foo", command := "bar" }] }]).2.1).map
        (fun r => (r.externalDeviceId, r.component)) = [("d|p", "main")] ∧
    handleCommand (fun _ => false) { deviceId := "x", playlistUri := none }
        { capability := "foo", command := "bar" } = ([], Except.ok []) := by
  have h := command_one_entry_per_request (fun _ => false)
      [{ externalDeviceId := "d|p"
         commands := [{ capability := "foo", command := "bar" }] }]
  exact ⟨h.1, h.2 { deviceId := "x", playlistUri := none }
    { capability := "foo", command := "bar" } (Or.inl (by decide))⟩

end SpotifyLambda
